import Mathlib

/-!
Shallow embedding of the Worker-side coordination layer of swan
(src/src/worker.rs): the connect/retry loop, the registration push, the
speculative two-shape decode in AwaitingAssignment, the user-building loop,
the AwaitingGoAhead heartbeat loop, the metrics push channel, the peer-loss
pipe handlers, and the merge of the Manager-sent configuration with the
Worker-local configuration before handing off to the attack engine.
-/

namespace Swan

/-- Modelled from the spec: `SwanlingUserCommand` is declared in the out-of-src
module `crate::swanling`. Section 3 of the spec fixes it as the closed
enumeration {Run, Exit, Wait(implicit default)} sent from Manager to Worker;
`Wait` stands for every recognized value other than `Run` and `Exit`
(worker.rs only ever matches `Run`, `Exit` and a wildcard arm). -/
inductive SwanlingUserCommand where
  | Run
  | Exit
  | Wait
  deriving DecidableEq, Repr

/-- Modelled from the spec: the run-scoped configuration bundle
(`SwanlingConfiguration`, produced by the out-of-scope CLI parser; the struct
itself lives outside src/). The fields worker.rs reads or writes are explicit;
`shared` stands for every other Manager-shared field of the bundle. -/
structure SwanlingConfiguration where
  manager : Bool
  worker : Bool
  manager_host : String
  manager_port : Nat
  request_log : String
  request_format : String
  task_log : String
  task_format : String
  error_log : String
  error_format : String
  debug_log : String
  debug_format : String
  throttle_requests : Nat
  shared : Nat
  deriving DecidableEq, Repr

/-- Modelled from the spec: the configuration produced by
`SwanlingConfiguration::parse_args_default(&EMPTY_ARGS)` (worker.rs line 100);
the CLI parser is an out-of-scope collaborator, so the default bundle is
abstracted as a fixed record. -/
def defaultConfiguration : SwanlingConfiguration :=
  { manager := false
    worker := false
    manager_host := ""
    manager_port := 0
    request_log := ""
    request_format := ""
    task_log := ""
    task_format := ""
    error_log := ""
    error_format := ""
    debug_log := ""
    debug_format := ""
    throttle_requests := 0
    shared := 0 }

/-- Modelled from the spec: `SwanlingUserInitializer` is declared in the
out-of-src module `crate::manager`; section 6 of the spec fixes its fields:
`worker_id`, `task_sets_index`, `base_url`, `min_wait`/`max_wait`,
`config`, `run_time`. -/
structure SwanlingUserInitializer where
  worker_id : Nat
  task_sets_index : Nat
  base_url : String
  min_wait : Nat
  max_wait : Nat
  config : SwanlingConfiguration
  run_time : Nat
  deriving DecidableEq, Repr

/-- A local simulated-user state, abstracted to the arguments worker.rs passes
to `SwanlingUser::new` (lines 139-146): task-set index, base URL, min/max
wait, the run configuration and the load-test hash. -/
structure SwanlingUser where
  task_sets_index : Nat
  base_url : String
  min_wait : Nat
  max_wait : Nat
  config : SwanlingConfiguration
  load_test_hash : Nat
  deriving DecidableEq, Repr

/-- worker.rs lines 17-27: metrics pushed from Worker to Manager. The three
batch payload types live in `crate::metrics` (out of src/), abstracted as
opaque numeric batches. -/
inductive GaggleMetrics where
  | WorkerInit (hash : Nat)
  | Requests (batch : Nat)
  | Tasks (batch : Nat)
  | Errors (batch : Nat)
  deriving DecidableEq, Repr

/-- The pipe-level events of the transport socket; worker.rs only ever tests
for `RemovePost` (peer removed). -/
inductive PipeEvent where
  | AddPre
  | AddPost
  | RemovePost
  deriving DecidableEq, Repr

/-- What a pipe-notify handler does when invoked. -/
inductive PeerLossAction where
  | panics
  | logsInfo
  | ignores
  deriving DecidableEq, Repr

/-- worker.rs lines 29-34: the fatal handler, panics on `RemovePost`. -/
def pipe_closed (event : PipeEvent) : PeerLossAction :=
  if event = PipeEvent.RemovePost then PeerLossAction.panics else PeerLossAction.ignores

/-- worker.rs lines 36-41: the shutdown handler, only logs on `RemovePost`. -/
def pipe_closed_during_shutdown (event : PipeEvent) : PeerLossAction :=
  if event = PipeEvent.RemovePost then PeerLossAction.logsInfo else PeerLossAction.ignores

/-- Which peer-loss handler is currently registered on the manager socket.
`fatal` is `pipe_closed` (set at startup, line 66); `informational` is
`pipe_closed_during_shutdown` (set by `register_shutdown_pipe_handler`,
lines 45-50). -/
inductive PipeHandler where
  | fatal
  | informational
  deriving DecidableEq, Repr

/-- The action the currently registered handler takes on a pipe event. -/
def handlerAction : PipeHandler → PipeEvent → PeerLossAction
  | PipeHandler.fatal, e => pipe_closed e
  | PipeHandler.informational, e => pipe_closed_during_shutdown e

/-! ## Connect with bounded retry (worker.rs lines 70-91) -/

/-- Result of the dial loop: connected, or the panic at line 79 naming the
address and the underlying cause. -/
inductive ConnectResult where
  | connected
  | aborted (address : String) (cause : String)
  deriving DecidableEq, Repr

/-- Observable trace of the dial loop: how many `dial` calls were made, how
many milliseconds were slept inside the loop, and the outcome. -/
structure ConnectTrace where
  attempts : Nat
  sleepMs : Nat
  result : ConnectResult
  deriving DecidableEq, Repr

/-- worker.rs lines 73-91: the dial loop. `dial r` is the result of the
attempt made when the `retries` counter holds `r` (`none` = `Ok`, `some e` =
`Err(e)`). On failure with `retries >= 5` the process panics; otherwise it
sleeps 500 ms, increments `retries` and retries. -/
def dialLoop (dial : Nat → Option String) (address : String) (retries : Nat) : ConnectTrace :=
  match dial retries with
  | none => { attempts := 1, sleepMs := 0, result := ConnectResult.connected }
  | some e =>
    if h5 : 5 ≤ retries then
      { attempts := 1, sleepMs := 0, result := ConnectResult.aborted address e }
    else
      let t := dialLoop dial address (retries + 1)
      { attempts := t.attempts + 1, sleepMs := t.sleepMs + 500, result := t.result }
termination_by 6 - retries
decreasing_by omega

/-- worker.rs lines 70-91: the whole connect step, including the leading
100 ms grace sleep at line 71 before the first dial. -/
def connectStep (dial : Nat → Option String) (address : String) : ConnectTrace :=
  let t := dialLoop dial address 0
  { t with sleepMs := t.sleepMs + 100 }

/-! ## Registration and heartbeat messages (worker.rs lines 93-98, 170-174) -/

/-- worker.rs lines 93-98: the registration push payload,
`vec![GaggleMetrics::WorkerInit(swanling_attack.metrics.hash)]`. -/
def registrationMetrics (hash : Nat) : List GaggleMetrics :=
  [GaggleMetrics.WorkerInit hash]

/-- worker.rs lines 170-174: the heartbeat push payload inside the
AwaitingGoAhead loop, `vec![GaggleMetrics::WorkerInit(swanling_attack.metrics.hash)]`. -/
def heartbeatMetrics (hash : Nat) : List GaggleMetrics :=
  [GaggleMetrics.WorkerInit hash]

/-! ## Metrics push channel (worker.rs lines 263-306) -/

/-- Outcome of `push_metrics_to_manager`: the returned boolean together with
the pipe handler registered after the call, or the abort when the solicited
reply cannot be received/decoded (the `expect`s at lines 289 and 293). -/
inductive PushOutcome where
  | ok (cont : Bool) (handler : PipeHandler)
  | abortRecvOrDecode
  deriving DecidableEq, Repr

/-- worker.rs lines 263-306: encode and send the metrics batch (encode/send
failures abort and are outside this value-level model); if `get_response` is
set, receive one reply and decode it as a `SwanlingUserCommand` (`reply` is
`none` when that receive/decode fails). On `Exit` the shutdown pipe handler
is registered (line 301) and `false` is returned; otherwise `true`. -/
def push_metrics_to_manager (handler : PipeHandler) (_metrics : List GaggleMetrics)
    (get_response : Bool) (reply : Option SwanlingUserCommand) : PushOutcome :=
  if get_response then
    match reply with
    | none => PushOutcome.abortRecvOrDecode
    | some command =>
      if command = SwanlingUserCommand.Exit then
        PushOutcome.ok false PipeHandler.informational
      else
        PushOutcome.ok true handler
  else
    PushOutcome.ok true handler

/-! ## AwaitingAssignment: speculative two-shape decode (worker.rs lines 107-130) -/

/-- The four possible outcomes of the post-registration receive: proceed to
BuildingUsers, or one of the three panics at lines 118, 123 and 126. -/
inductive AssignOutcome where
  | proceed (initializers : List SwanlingUserInitializer)
  | abortUnexpectedExit
  | abortUnknownCommand (c : SwanlingUserCommand)
  | abortInvalidMessage
  deriving DecidableEq, Repr

/-- worker.rs lines 112-130: try to decode the received buffer as a
`Vec<SwanlingUserInitializer>`; only on failure try the same buffer as a
`SwanlingUserCommand`. `decodeInitializers` and `decodeCommand` are the two
serde_cbor decode results for the buffer. `Exit` aborts (line 123), any other
command aborts (line 126), double decode failure aborts (line 118). -/
def awaitingAssignment (decodeInitializers : Option (List SwanlingUserInitializer))
    (decodeCommand : Option SwanlingUserCommand) : AssignOutcome :=
  match decodeInitializers with
  | some i => AssignOutcome.proceed i
  | none =>
    match decodeCommand with
    | none => AssignOutcome.abortInvalidMessage
    | some command =>
      match command with
      | SwanlingUserCommand.Exit => AssignOutcome.abortUnexpectedExit
      | other => AssignOutcome.abortUnknownCommand other

/-- How the process terminates (or does not) at a given point: Rust
`std::process::exit(code)`, a panic (non-zero exit with a diagnostic), or
normal continuation. -/
inductive Termination where
  | exitWith (code : Nat)
  | abortNonzero (diagnostic : String)
  | continues
  deriving DecidableEq, Repr

/-- The process-level effect of each AwaitingAssignment outcome: the three
panics (worker.rs lines 118, 123, 126) are non-zero aborts with their
diagnostics; a successful decode continues into BuildingUsers. -/
def assignTermination : AssignOutcome → Termination
  | AssignOutcome.proceed _ => Termination.continues
  | AssignOutcome.abortUnexpectedExit =>
      Termination.abortNonzero "unexpected SwanlingUserCommand::Exit from manager during startup"
  | AssignOutcome.abortUnknownCommand _ =>
      Termination.abortNonzero "unknown command from manager"
  | AssignOutcome.abortInvalidMessage =>
      Termination.abortNonzero "invalid message received"

/-! ## BuildingUsers (worker.rs lines 100-163) -/

/-- The Worker-local state produced by the user-building loop: the weighted
user list, the value stored into `WORKER_ID` (line 158), and the captured
`run_time` and `config`. -/
structure BuildResult where
  weighted_users : List SwanlingUser
  worker_id : Nat
  run_time : Nat
  config : SwanlingConfiguration
  deriving DecidableEq, Repr

/-- worker.rs lines 135-157: one pass over the initializers. Each iteration
sets `worker_id` from the initializer when it is still 0 (lines 136-138),
materializes one `SwanlingUser` (lines 139-148), and copies `config` and
`run_time` from the initializer exactly when `weighted_users` is still empty
(lines 152-155) before pushing the user (line 156). -/
def buildUsersLoop (hash : Nat) :
    List SwanlingUserInitializer → BuildResult → BuildResult
  | [], st => st
  | initializer :: rest, st =>
    let wid := if st.worker_id = 0 then initializer.worker_id else st.worker_id
    let user : SwanlingUser :=
      { task_sets_index := initializer.task_sets_index
        base_url := initializer.base_url
        min_wait := initializer.min_wait
        max_wait := initializer.max_wait
        config := initializer.config
        load_test_hash := hash }
    if st.weighted_users.isEmpty then
      buildUsersLoop hash rest
        { weighted_users := st.weighted_users ++ [user]
          worker_id := wid
          run_time := initializer.run_time
          config := initializer.config }
    else
      buildUsersLoop hash rest
        { st with weighted_users := st.weighted_users ++ [user], worker_id := wid }

/-- worker.rs lines 100-158: BuildingUsers starting from the state set up at
lines 100-103 and 132 (`config` = default parse, no users, `run_time = 0`,
local `worker_id = 0`). -/
def buildUsers (hash : Nat) (initializers : List SwanlingUserInitializer) : BuildResult :=
  buildUsersLoop hash initializers
    { weighted_users := [], worker_id := 0, run_time := 0, config := defaultConfiguration }

/-- First nonzero element of a list of naturals, 0 when there is none: the
value the `if worker_id == 0` guard at worker.rs lines 136-138 computes over
the initializer ids. -/
def firstNonzero : List Nat → Nat
  | [] => 0
  | x :: rest => if x = 0 then firstNonzero rest else x

/-- Composition of AwaitingAssignment and BuildingUsers: `none` when the
receive aborts the process, otherwise the built Worker-local state. -/
def afterAssignment (hash : Nat) (decodeInitializers : Option (List SwanlingUserInitializer))
    (decodeCommand : Option SwanlingUserCommand) : Option BuildResult :=
  match awaitingAssignment decodeInitializers decodeCommand with
  | AssignOutcome.proceed initializers => some (buildUsers hash initializers)
  | _ => none

/-! ## AwaitingGoAhead loop (worker.rs lines 168-206) -/

/-- What one iteration of the go-ahead loop does with the decoded reply:
break out to StartingAttack (line 186), `std::process::exit(0)` (line 193),
or sleep (1000 ms, line 197) and repeat. -/
inductive GoAheadStep where
  | breakToStart
  | exitProcess (code : Nat)
  | sleepAndRepeat (ms : Nat)
  deriving DecidableEq, Repr

/-- worker.rs lines 184-205: the match on the decoded reply command. -/
def goAheadStep : SwanlingUserCommand → GoAheadStep
  | SwanlingUserCommand.Run => GoAheadStep.breakToStart
  | SwanlingUserCommand.Exit => GoAheadStep.exitProcess 0
  | _ => GoAheadStep.sleepAndRepeat 1000

/-- Result of running the go-ahead loop against a finite list of decoded
replies: broke out to StartingAttack, exited the process, or consumed all
replies and is still blocked waiting. Each carries the pipe handler in force
at that point and the number of heartbeat pushes made. -/
inductive LoopResult where
  | started (handler : PipeHandler) (heartbeats : Nat)
  | exited (code : Nat) (handler : PipeHandler) (heartbeats : Nat)
  | waiting (handler : PipeHandler) (heartbeats : Nat)
  deriving DecidableEq, Repr

/-- worker.rs lines 168-206: the go-ahead loop. Each iteration first pushes a
`WorkerInit(hash)` heartbeat with `get_response = false` (lines 170-174),
then receives and decodes one reply (`replies` lists the successive decoded
commands) and acts on it (lines 184-205). `Run` breaks out, `Exit` calls
`std::process::exit(0)` without touching the pipe handler, anything else
sleeps and loops. -/
def goAheadLoop (hash : Nat) (handler : PipeHandler) :
    List SwanlingUserCommand → Nat → LoopResult
  | [], heartbeats => LoopResult.waiting handler heartbeats
  | command :: rest, heartbeats =>
    let h1 := match push_metrics_to_manager handler (heartbeatMetrics hash) false none with
      | PushOutcome.ok _ h => h
      | PushOutcome.abortRecvOrDecode => handler
    match command with
    | SwanlingUserCommand.Run => LoopResult.started h1 (heartbeats + 1)
    | SwanlingUserCommand.Exit => LoopResult.exited 0 h1 (heartbeats + 1)
    | _ => goAheadLoop hash h1 rest (heartbeats + 1)

/-- The hash carried by each heartbeat actually pushed by the go-ahead loop,
one entry per iteration (the push at lines 170-174 happens before the reply
is read, so the final iteration also pushes one). -/
def goAheadHashes (hash : Nat) : List SwanlingUserCommand → List Nat
  | [] => []
  | command :: rest =>
    hash ::
      match command with
      | SwanlingUserCommand.Run => []
      | SwanlingUserCommand.Exit => []
      | _ => goAheadHashes hash rest

/-! ## StartingAttack: configuration merge (worker.rs lines 208-259) -/

/-- Modelled from the spec: the attack mode flag (`AttackMode` lives outside
src/); worker.rs sets `AttackMode::Worker`, and the spec says the flag marks
the instance as a Worker rather than a standalone or Manager instance. -/
inductive AttackMode where
  | StandAlone
  | Manager
  | Worker
  deriving DecidableEq, Repr

/-- The fields of `SwanlingAttack` that worker.rs reads or writes; the task
sets and defaults handed through unchanged are abstracted as opaque values. -/
structure SwanlingAttack where
  configuration : SwanlingConfiguration
  metrics_hash : Nat
  run_time : Nat
  weighted_users : List SwanlingUser
  attack_mode : AttackMode
  task_sets : Nat
  defaults : Nat
  started : Option Nat
  deriving DecidableEq, Repr

/-- Modelled from the spec: `SwanlingAttack::initialize_with_config` lives
outside src/; per section 6 it produces an attack carrying the given
configuration bundle, with the remaining fields at their defaults. -/
def initialize_with_config (config : SwanlingConfiguration) : SwanlingAttack :=
  { configuration := config
    metrics_hash := 0
    run_time := 0
    weighted_users := []
    attack_mode := AttackMode.StandAlone
    task_sets := 0
    defaults := 0
    started := none }

/-- worker.rs lines 213-253: build the Worker-side attack handed to the
attack engine. `swanling_attack` is the Worker-local attack (the function
argument), `config` and `run_time` are the Manager-sent values captured in
BuildingUsers, `now` stands for `time::Instant::now()`. -/
def workerAttackSetup (swanling_attack : SwanlingAttack) (config : SwanlingConfiguration)
    (run_time : Nat) (weighted_users : List SwanlingUser) (now : Nat) : SwanlingAttack :=
  let a := initialize_with_config config
  { a with
    started := some now
    task_sets := swanling_attack.task_sets
    run_time := run_time
    weighted_users := weighted_users
    configuration :=
      { a.configuration with
        manager := false
        worker := true
        request_log := swanling_attack.configuration.request_log
        request_format := swanling_attack.configuration.request_format
        task_log := swanling_attack.configuration.task_log
        task_format := swanling_attack.configuration.task_format
        error_log := swanling_attack.configuration.error_log
        error_format := swanling_attack.configuration.error_format
        debug_log := swanling_attack.configuration.debug_log
        debug_format := swanling_attack.configuration.debug_format
        throttle_requests := swanling_attack.configuration.throttle_requests }
    attack_mode := AttackMode.Worker
    defaults := swanling_attack.defaults }

/-- A concrete initializer whose `worker_id` is 0, used to exercise the
`if worker_id == 0` guard at worker.rs lines 136-138. -/
def initZero : SwanlingUserInitializer :=
  { worker_id := 0
    task_sets_index := 0
    base_url := "http://localhost"
    min_wait := 0
    max_wait := 0
    config := defaultConfiguration
    run_time := 60 }

/-- A concrete initializer whose `worker_id` is 7. -/
def initSeven : SwanlingUserInitializer :=
  { initZero with worker_id := 7 }

/-! ## Theorems -/

/-- C1: in AwaitingAssignment the Worker first attempts the initializer
decode; only if it fails does it attempt the command decode; `Exit` aborts
fatally, any other command aborts fatally, and a double decode failure aborts
fatally — for every buffer exactly one of the four outcomes occurs, as
characterized by these four mutually exclusive equivalences. -/
theorem C1_awaiting_assignment_partition
    (di : Option (List SwanlingUserInitializer)) (dc : Option SwanlingUserCommand) :
    (∀ l, awaitingAssignment di dc = AssignOutcome.proceed l ↔ di = some l)
    ∧ (awaitingAssignment di dc = AssignOutcome.abortUnexpectedExit ↔
        di = none ∧ dc = some SwanlingUserCommand.Exit)
    ∧ (∀ c, awaitingAssignment di dc = AssignOutcome.abortUnknownCommand c ↔
        di = none ∧ dc = some c ∧ c ≠ SwanlingUserCommand.Exit)
    ∧ (awaitingAssignment di dc = AssignOutcome.abortInvalidMessage ↔
        di = none ∧ dc = none) := by
  rcases di with _ | l
  · rcases dc with _ | c
    · simp [awaitingAssignment]
    · rcases c <;> simp [awaitingAssignment]
  · simp [awaitingAssignment]

/-- C5: `push_metrics_to_manager` with `get_response = false` returns `true`
at once, never consults a reply and leaves the pipe handler unchanged; with
`get_response = true` it consumes exactly one decoded reply — `Exit` swaps
the pipe handler to the informational one and returns `false`, every other
command returns `true` with the handler unchanged. -/
theorem C5_push_reply_discipline (handler : PipeHandler) (metrics : List GaggleMetrics)
    (reply : Option SwanlingUserCommand) (command : SwanlingUserCommand) :
    push_metrics_to_manager handler metrics false reply = PushOutcome.ok true handler
    ∧ push_metrics_to_manager handler metrics true (some command) =
        (if command = SwanlingUserCommand.Exit then
          PushOutcome.ok false PipeHandler.informational
         else PushOutcome.ok true handler) := by
  refine ⟨rfl, ?_⟩
  rcases command <;> rfl

/-- C7: in the AwaitingGoAhead loop, `Run` breaks out to StartingAttack,
`Exit` exits the process with status 0, and every other command sleeps
1000 ms and re-enters the loop; re-entering on a `Wait`-class reply is one
more iteration of the same loop (one more heartbeat). -/
theorem C7_command_collapse (c : SwanlingUserCommand) (hash : Nat)
    (handler : PipeHandler) (rest : List SwanlingUserCommand) (n : Nat) :
    goAheadStep c =
      (if c = SwanlingUserCommand.Run then GoAheadStep.breakToStart
       else if c = SwanlingUserCommand.Exit then GoAheadStep.exitProcess 0
       else GoAheadStep.sleepAndRepeat 1000)
    ∧ goAheadLoop hash handler (SwanlingUserCommand.Wait :: rest) n =
        goAheadLoop hash handler rest (n + 1)
    ∧ goAheadHashes hash (SwanlingUserCommand.Wait :: rest) =
        hash :: goAheadHashes hash rest := by
  refine ⟨?_, rfl, rfl⟩
  rcases c <;> rfl

/-- C9: every heartbeat pushed by the AwaitingGoAhead loop carries the same
hash as the registration message, however many iterations occur: the
heartbeat payload is literally the registration payload, and every entry of
the pushed-hash trace equals the registration hash. -/
theorem C9_heartbeat_hash_constant (hash : Nat) (replies : List SwanlingUserCommand) :
    heartbeatMetrics hash = registrationMetrics hash
    ∧ (goAheadHashes hash replies).all (fun x => x == hash) = true := by
  refine ⟨rfl, ?_⟩
  induction replies with
  | nil => rfl
  | cons c rest ih =>
    rcases c <;> simp [goAheadHashes]
    simpa using ih

/-- C10: an empty initializer sequence is accepted without abort: the Worker
builds zero users, stores 0 into `WORKER_ID`, keeps run duration 0 and the
default parsed configuration, and continues (into the AwaitingGoAhead loop). -/
theorem C10_empty_assignment (hash : Nat) (dc : Option SwanlingUserCommand) :
    afterAssignment hash (some []) dc =
      some { weighted_users := [], worker_id := 0, run_time := 0,
             config := defaultConfiguration }
    ∧ assignTermination (awaitingAssignment (some []) dc) = Termination.continues := by
  exact ⟨rfl, rfl⟩

/-- C3 counterexample: when `Exit` arrives in the AwaitingGoAhead loop the
Worker exits immediately and the pipe handler is NOT swapped — it is still
the fatal one, whose reaction to a peer-loss event is a panic, not the
informational log the claim asserts. -/
theorem C3_counterexample :
    goAheadLoop 0 PipeHandler.fatal [SwanlingUserCommand.Exit] 0 =
      LoopResult.exited 0 PipeHandler.fatal 1
    ∧ handlerAction PipeHandler.fatal PipeEvent.RemovePost = PeerLossAction.panics
    ∧ handlerAction PipeHandler.fatal PipeEvent.RemovePost ≠ PeerLossAction.logsInfo := by
  refine ⟨rfl, rfl, by decide⟩

/-- C3 (amended): before any Exit is processed the registered handler is the
fatal one (peer loss panics); when `push_metrics_to_manager` with
`want_reply = true` processes an Exit it swaps the handler to the
informational one (peer loss only logs) and returns `false`; when Exit
arrives in the AwaitingGoAhead loop the process exits immediately with
status 0 without swapping the handler, so no later peer-loss event is
processed at all. -/
theorem C3_peer_loss_swap (h : PipeHandler) (m : List GaggleMetrics) (hash : Nat)
    (rest : List SwanlingUserCommand) (n : Nat) :
    handlerAction PipeHandler.fatal PipeEvent.RemovePost = PeerLossAction.panics
    ∧ push_metrics_to_manager h m true (some SwanlingUserCommand.Exit) =
        PushOutcome.ok false PipeHandler.informational
    ∧ handlerAction PipeHandler.informational PipeEvent.RemovePost = PeerLossAction.logsInfo
    ∧ goAheadLoop hash PipeHandler.fatal (SwanlingUserCommand.Exit :: rest) n =
        LoopResult.exited 0 PipeHandler.fatal (n + 1) := by
  exact ⟨rfl, rfl, rfl, rfl⟩

/-- C8: in the attack handed to the attack engine, the run duration is the
Manager-sent `run_time`; the request/task/error/debug log paths and formats
and `throttle_requests` come from the Worker's own local configuration; the
mode flags mark a Worker (`worker = true`, `manager = false`,
`attack_mode = Worker`); and every other configuration field (host, port and
the abstracted shared remainder) comes from the Manager-supplied `config`. -/
theorem C8_attack_configuration (sa : SwanlingAttack) (config : SwanlingConfiguration)
    (run_time : Nat) (users : List SwanlingUser) (now : Nat) :
    (workerAttackSetup sa config run_time users now).run_time = run_time
    ∧ (workerAttackSetup sa config run_time users now).configuration.request_log =
        sa.configuration.request_log
    ∧ (workerAttackSetup sa config run_time users now).configuration.request_format =
        sa.configuration.request_format
    ∧ (workerAttackSetup sa config run_time users now).configuration.task_log =
        sa.configuration.task_log
    ∧ (workerAttackSetup sa config run_time users now).configuration.task_format =
        sa.configuration.task_format
    ∧ (workerAttackSetup sa config run_time users now).configuration.error_log =
        sa.configuration.error_log
    ∧ (workerAttackSetup sa config run_time users now).configuration.error_format =
        sa.configuration.error_format
    ∧ (workerAttackSetup sa config run_time users now).configuration.debug_log =
        sa.configuration.debug_log
    ∧ (workerAttackSetup sa config run_time users now).configuration.debug_format =
        sa.configuration.debug_format
    ∧ (workerAttackSetup sa config run_time users now).configuration.throttle_requests =
        sa.configuration.throttle_requests
    ∧ (workerAttackSetup sa config run_time users now).configuration.worker = true
    ∧ (workerAttackSetup sa config run_time users now).configuration.manager = false
    ∧ (workerAttackSetup sa config run_time users now).attack_mode = AttackMode.Worker
    ∧ (workerAttackSetup sa config run_time users now).configuration.manager_host =
        config.manager_host
    ∧ (workerAttackSetup sa config run_time users now).configuration.manager_port =
        config.manager_port
    ∧ (workerAttackSetup sa config run_time users now).configuration.shared = config.shared
    ∧ (workerAttackSetup sa config run_time users now).weighted_users = users := by
  exact ⟨rfl, rfl, rfl, rfl, rfl, rfl, rfl, rfl, rfl, rfl, rfl, rfl, rfl, rfl, rfl, rfl, rfl⟩

/-- Each iteration of the user-building loop appends exactly one user. -/
theorem buildUsersLoop_length (hash : Nat) (inits : List SwanlingUserInitializer) :
    ∀ st : BuildResult,
      (buildUsersLoop hash inits st).weighted_users.length
        = st.weighted_users.length + inits.length := by
  induction inits with
  | nil => intro st; simp [buildUsersLoop]
  | cons i rest ih =>
    intro st
    rcases hst : st.weighted_users with _ | ⟨u, us⟩ <;>
      simp [buildUsersLoop, hst, ih] <;> omega

/-- Once at least one user has been pushed, later iterations change neither
the captured `run_time` nor the captured `config` (the copy at worker.rs
lines 152-155 is guarded by `weighted_users.is_empty()`). -/
theorem buildUsersLoop_capture (hash : Nat) (inits : List SwanlingUserInitializer) :
    ∀ st : BuildResult, st.weighted_users ≠ [] →
      (buildUsersLoop hash inits st).run_time = st.run_time
      ∧ (buildUsersLoop hash inits st).config = st.config := by
  induction inits with
  | nil => intro st _; exact ⟨rfl, rfl⟩
  | cons i rest ih =>
    intro st hst
    rcases hu : st.weighted_users with _ | ⟨u, us⟩
    · exact absurd hu hst
    · simp only [buildUsersLoop, hu, List.isEmpty_cons, ite_false, Bool.false_eq_true,
        if_false]
      exact ih _ (by simp [hu])

/-- The `worker_id` produced by the loop is the state's id when it is already
nonzero, and otherwise the first nonzero id among the initializers. -/
theorem buildUsersLoop_worker_id (hash : Nat) (inits : List SwanlingUserInitializer) :
    ∀ st : BuildResult,
      (buildUsersLoop hash inits st).worker_id =
        if st.worker_id = 0 then firstNonzero (inits.map (fun i => i.worker_id))
        else st.worker_id := by
  induction inits with
  | nil =>
    intro st
    by_cases hw : st.worker_id = 0 <;> simp [buildUsersLoop, firstNonzero, hw]
  | cons i rest ih =>
    intro st
    by_cases hw : st.worker_id = 0 <;>
      rcases hu : st.weighted_users with _ | ⟨u, us⟩ <;>
        by_cases hz : i.worker_id = 0 <;>
          simp [buildUsersLoop, hu, hw, hz, ih, firstNonzero]

/-- C2 counterexample: with the assignment `[initZero, initSeven]` (first
initializer has `worker_id = 0`, second has `worker_id = 7`) the value stored
into `WORKER_ID` is 7, not the first initializer's `worker_id` (which is 0)
as the claim requires. -/
theorem C2_counterexample :
    (buildUsers 0 [initZero, initSeven]).worker_id = 7
    ∧ initZero.worker_id = 0
    ∧ (buildUsers 0 [initZero, initSeven]).worker_id ≠ initZero.worker_id := by
  refine ⟨rfl, rfl, by decide⟩

/-- C2 (amended): for every nonempty assignment, BuildingUsers produces
exactly one local user per initializer, captures `run_time` and `config` from
the first initializer, and stores into `WORKER_ID` the first nonzero
`worker_id` among the initializers — which equals `initializers[0].worker_id`
whenever that value is nonzero, and is 0 when all ids are zero. -/
theorem C2_assignment_atomicity (hash : Nat) (i0 : SwanlingUserInitializer)
    (rest : List SwanlingUserInitializer) :
    (buildUsers hash (i0 :: rest)).weighted_users.length = (i0 :: rest).length
    ∧ (buildUsers hash (i0 :: rest)).run_time = i0.run_time
    ∧ (buildUsers hash (i0 :: rest)).config = i0.config
    ∧ (buildUsers hash (i0 :: rest)).worker_id =
        firstNonzero ((i0 :: rest).map (fun i => i.worker_id))
    ∧ (i0.worker_id ≠ 0 →
        (buildUsers hash (i0 :: rest)).worker_id = i0.worker_id) := by
  have hlen := buildUsersLoop_length hash (i0 :: rest)
    { weighted_users := [], worker_id := 0, run_time := 0, config := defaultConfiguration }
  have hwid := buildUsersLoop_worker_id hash (i0 :: rest)
    { weighted_users := [], worker_id := 0, run_time := 0, config := defaultConfiguration }
  refine ⟨by simpa [buildUsers] using hlen, ?_, ?_, ?_, ?_⟩
  · have := buildUsersLoop_capture hash rest
      { weighted_users := [ { task_sets_index := i0.task_sets_index
                              base_url := i0.base_url
                              min_wait := i0.min_wait
                              max_wait := i0.max_wait
                              config := i0.config
                              load_test_hash := hash } ]
        worker_id := i0.worker_id
        run_time := i0.run_time
        config := i0.config } (by simp)
    simpa [buildUsers, buildUsersLoop] using this.1
  · have := buildUsersLoop_capture hash rest
      { weighted_users := [ { task_sets_index := i0.task_sets_index
                              base_url := i0.base_url
                              min_wait := i0.min_wait
                              max_wait := i0.max_wait
                              config := i0.config
                              load_test_hash := hash } ]
        worker_id := i0.worker_id
        run_time := i0.run_time
        config := i0.config } (by simp)
    simpa [buildUsers, buildUsersLoop] using this.2
  · simpa [buildUsers] using hwid
  · intro hz
    have h1 : (buildUsers hash (i0 :: rest)).worker_id =
        firstNonzero ((i0 :: rest).map (fun i => i.worker_id)) := by
      simpa [buildUsers] using hwid
    simp [h1, firstNonzero, hz]

/-- C2 witness: at the concrete one-element assignment `[initSeven]`, the
amended statement holds with 1 user, run duration 60 and Worker id 7. -/
theorem C2_assignment_atomicity_witness :
    (buildUsers 0 [initSeven]).weighted_users.length = 1
    ∧ (buildUsers 0 [initSeven]).run_time = 60
    ∧ (buildUsers 0 [initSeven]).worker_id = 7 := by
  obtain ⟨hl, hr, _, _, himp⟩ := C2_assignment_atomicity 0 initSeven []
  exact ⟨by simpa using hl, hr.trans rfl, (himp (by decide)).trans rfl⟩

/-- Unfolding step of the dial loop: a failed attempt with the retry budget
exhausted (worker.rs line 78-79) aborts, naming address and cause. -/
theorem dialLoop_fail_last (dial : Nat → Option String) (address : String)
    (r : Nat) (e : String) (hc : dial r = some e) (hr : 5 ≤ r) :
    dialLoop dial address r =
      { attempts := 1, sleepMs := 0, result := ConnectResult.aborted address e } := by
  conv_lhs => rw [dialLoop.eq_def]
  rw [hc]
  simp [hr]

/-- Unfolding step of the dial loop: a failed attempt with budget left sleeps
500 ms, increments `retries` and retries (worker.rs lines 81-88). -/
theorem dialLoop_fail_step (dial : Nat → Option String) (address : String)
    (r : Nat) (e : String) (hc : dial r = some e) (hr : r < 5) :
    dialLoop dial address r =
      { attempts := (dialLoop dial address (r + 1)).attempts + 1
        sleepMs := (dialLoop dial address (r + 1)).sleepMs + 500
        result := (dialLoop dial address (r + 1)).result } := by
  conv_lhs => rw [dialLoop.eq_def]
  rw [hc]
  simp [Nat.not_le.mpr hr]

/-- With a dial that always fails, the whole connect step makes exactly 6
attempts, sleeps 100 + 5 * 500 ms in total, and aborts naming the address and
the cause of the last attempt. -/
theorem connect_exhausted (dial : Nat → Option String) (address : String)
    (hd : ∀ i, dial i ≠ none) :
    (connectStep dial address).attempts = 6
    ∧ (connectStep dial address).sleepMs = 2600
    ∧ ∃ cause, dial 5 = some cause
        ∧ (connectStep dial address).result = ConnectResult.aborted address cause := by
  have hsome : ∀ i, ∃ c, dial i = some c := by
    intro i
    cases hi : dial i with
    | none => exact absurd hi (hd i)
    | some c => exact ⟨c, rfl⟩
  obtain ⟨c0, h0⟩ := hsome 0
  obtain ⟨c1, h1⟩ := hsome 1
  obtain ⟨c2, h2⟩ := hsome 2
  obtain ⟨c3, h3⟩ := hsome 3
  obtain ⟨c4, h4⟩ := hsome 4
  obtain ⟨c5, h5⟩ := hsome 5
  have e5 := dialLoop_fail_last dial address 5 c5 h5 (by omega)
  have e4 := dialLoop_fail_step dial address 4 c4 h4 (by omega)
  have e3 := dialLoop_fail_step dial address 3 c3 h3 (by omega)
  have e2 := dialLoop_fail_step dial address 2 c2 h2 (by omega)
  have e1 := dialLoop_fail_step dial address 1 c1 h1 (by omega)
  have e0 := dialLoop_fail_step dial address 0 c0 h0 (by omega)
  have t : dialLoop dial address 0 =
      { attempts := 6, sleepMs := 2500, result := ConnectResult.aborted address c5 } := by
    rw [e0, e1, e2, e3, e4, e5]
  refine ⟨?_, ?_, c5, h5, ?_⟩ <;> simp [connectStep, t]

/-- C6: given a dial function that always fails, the connect step (including
the leading 100 ms grace sleep) makes exactly 6 attempts (1 initial + 5
retries), sleeps at least 100 + 5 * 500 ms, and aborts with a message naming
the address and the underlying cause. -/
theorem C6_retry_bound (dial : Nat → Option String) (address : String)
    (hd : ∀ i, dial i ≠ none) :
    (connectStep dial address).attempts = 6
    ∧ 100 + 5 * 500 ≤ (connectStep dial address).sleepMs
    ∧ ∃ cause, dial 5 = some cause
        ∧ (connectStep dial address).result = ConnectResult.aborted address cause := by
  obtain ⟨ha, hs, c, hc, hr⟩ := connect_exhausted dial address hd
  exact ⟨ha, by omega, c, hc, hr⟩

/-- C6 witness: the always-refusing dial at a concrete address makes 6
attempts, sleeps at least 2600 ms and aborts naming that address. -/
theorem C6_retry_bound_witness :
    (∀ i : Nat, (fun _ : Nat => some "connection refused") i ≠ none)
    ∧ ((connectStep (fun _ : Nat => some "connection refused")
          "tcp://0.0.0.0:5115").attempts = 6
      ∧ 100 + 5 * 500 ≤ (connectStep (fun _ : Nat => some "connection refused")
          "tcp://0.0.0.0:5115").sleepMs
      ∧ ∃ cause, (fun _ : Nat => some "connection refused") 5 = some cause
          ∧ (connectStep (fun _ : Nat => some "connection refused")
              "tcp://0.0.0.0:5115").result
            = ConnectResult.aborted "tcp://0.0.0.0:5115" cause) :=
  ⟨fun _ => by simp,
   C6_retry_bound (fun _ : Nat => some "connection refused") "tcp://0.0.0.0:5115"
     (fun _ => by simp)⟩

/-- C4 counterexample: an Exit received at the AwaitingAssignment listening
point does not terminate with status 0 — it is the panic at worker.rs line
123, a non-zero abort. -/
theorem C4_counterexample :
    assignTermination (awaitingAssignment none (some SwanlingUserCommand.Exit)) =
      Termination.abortNonzero
        "unexpected SwanlingUserCommand::Exit from manager during startup"
    ∧ assignTermination (awaitingAssignment none (some SwanlingUserCommand.Exit)) ≠
        Termination.exitWith 0 := by
  exact ⟨rfl, by simp [awaitingAssignment, assignTermination]⟩

/-- C4 (amended): an Exit received in the AwaitingGoAhead loop exits the
process with status 0; an Exit received as the reply to a
`push_metrics_to_manager` call with `get_response = true` makes the push
return `false` (the process keeps running under the attack engine); a command
— Exit included — decoded at the AwaitingAssignment listening point is a
protocol violation and a non-zero abort, as are a double decode failure
there, a failed receive/decode of a solicited push reply, and exhausted
connect retries. -/
theorem C4_exit_status_paths (hash : Nat) (h : PipeHandler) (m : List GaggleMetrics)
    (rest : List SwanlingUserCommand) (n : Nat) (c : SwanlingUserCommand)
    (address : String) :
    goAheadLoop hash h (SwanlingUserCommand.Exit :: rest) n = LoopResult.exited 0 h (n + 1)
    ∧ push_metrics_to_manager h m true (some SwanlingUserCommand.Exit) =
        PushOutcome.ok false PipeHandler.informational
    ∧ assignTermination (awaitingAssignment none (some c)) ≠ Termination.continues
    ∧ (∀ code, assignTermination (awaitingAssignment none (some c)) ≠
        Termination.exitWith code)
    ∧ assignTermination (awaitingAssignment none none) =
        Termination.abortNonzero "invalid message received"
    ∧ push_metrics_to_manager h m true none = PushOutcome.abortRecvOrDecode
    ∧ (connectStep (fun _ => some "connection refused") address).result =
        ConnectResult.aborted address "connection refused" := by
  refine ⟨rfl, rfl, ?_, ?_, rfl, rfl, ?_⟩
  · rcases c <;> simp [awaitingAssignment, assignTermination]
  · intro code
    rcases c <;> simp [awaitingAssignment, assignTermination]
  · obtain ⟨-, -, cause, hc, hr⟩ :=
      connect_exhausted (fun _ => some "connection refused") address (fun _ => by simp)
    have : cause = "connection refused" := by
      simpa using hc.symm
    rw [hr, this]

end Swan
